import Mathlib

/-!
Shallow embedding of `generate_speedtest_graph.py` and verification of its
specification claims.  The program is a linear pipeline:
read/parse lines → load records → sort → timezone resolution and conversion →
time filter → render → encode.  Python exceptions are modelled explicitly:
the per-record loader catches only `KeyError` and `ValueError`; every other
exception propagates and aborts the run (exit code 1, nothing on stdout).
Numbers are modelled as exact rationals, instants as integer seconds.
-/

/-- Python exception classes relevant to the script. -/
inductive PyExc where
  | keyError
  | valueError
  | typeError
  | attributeError
  | zeroDivisionError
deriving DecidableEq

/-- A JSON value as produced by `json.loads` on one input line. -/
inductive JValue where
  | jnull
  | jbool (b : Bool)
  | jnum (q : ℚ)
  | jstr (s : String)
  | jarr (elems : List JValue)
  | jobj (fields : List (String × JValue))

/-- A Python `datetime`: wall-clock seconds plus an optional UTC offset in
seconds (`none` models a timezone-naive datetime). -/
structure PyDateTime where
  wall : Int
  off : Option Int
deriving DecidableEq

/-- One loaded measurement row, exactly the dict appended in the loader loop:
`ping.latency` and `packetLoss` are stored as-is, without a numeric check. -/
structure Measurement where
  timestamp : PyDateTime
  download_mbps : ℚ
  upload_mbps : ℚ
  latency_ms : JValue
  packet_loss_percent : JValue

/-- Dict lookup as built by `json.loads`: on duplicate keys the last wins. -/
def lookupField (fields : List (String × JValue)) (key : String) : Option JValue :=
  fields.foldl (fun acc kv => if kv.fst = key then some kv.snd else acc) none

/-- `v[key]` subscription: `KeyError` on a dict without the key, `TypeError`
on every non-dict value (string subscripts on lists, strings, numbers, `None`
and booleans all raise `TypeError`). -/
def getItem (v : JValue) (key : String) : Except PyExc JValue :=
  match v with
  | .jobj fs =>
    match lookupField fs key with
    | some w => .ok w
    | none => .error .keyError
  | _ => .error .typeError

/-- `entry.get(key, default)`; `entry` is a dict on every reachable call. -/
def pyGet (v : JValue) (key : String) (dflt : JValue) : JValue :=
  match v with
  | .jobj fs => (lookupField fs key).getD dflt
  | _ => dflt

/-- `s.replace("Z", "+00:00")` at character level (the pattern is a single
character, so occurrences cannot overlap). -/
def replaceZChars : List Char → List Char
  | [] => []
  | c :: rest =>
    if c = 'Z' then '+' :: '0' :: '0' :: ':' :: '0' :: '0' :: replaceZChars rest
    else c :: replaceZChars rest

/-- `entry["timestamp"].replace("Z", "+00:00")`: a non-string value has no
`.replace` attribute and raises `AttributeError`. -/
def strAttrReplace (v : JValue) : Except PyExc (List Char) :=
  match v with
  | .jstr s => .ok (replaceZChars s.toList)
  | _ => .error .attributeError

def digitVal (c : Char) : Option Nat :=
  if c.isDigit then some (c.toNat - 48) else none

def twoDigits (a b : Char) : Option Nat :=
  match digitVal a, digitVal b with
  | some x, some y => some (10 * x + y)
  | _, _ => none

def isLeap (y : Int) : Bool :=
  (y % 4 = 0 && y % 100 ≠ 0) || y % 400 = 0

def daysInMonth (y m : Int) : Int :=
  if m = 2 then (if isLeap y then 29 else 28)
  else if m = 4 ∨ m = 6 ∨ m = 9 ∨ m = 11 then 30
  else 31

/-- Days since 1970-01-01 of a proleptic-Gregorian civil date. -/
def daysFromCivil (y m d : Int) : Int :=
  let y2 := if m ≤ 2 then y - 1 else y
  let era := Int.fdiv y2 400
  let yoe := y2 - era * 400
  let doy := Int.fdiv (153 * (m + (if m > 2 then -3 else 9)) + 2) 5 + d - 1
  let doe := yoe * 365 + Int.fdiv yoe 4 - Int.fdiv yoe 100 + doy
  era * 146097 + doe - 719468

/-- Optional trailing UTC offset `±HH:MM`; an empty rest is a naive datetime;
anything else fails the parse. Result in seconds. -/
def parseOffsetChars : List Char → Option (Option Int)
  | [] => some none
  | '+' :: a :: b :: ':' :: c :: d :: [] =>
    match twoDigits a b, twoDigits c d with
    | some oh, some om =>
      if oh ≤ 23 ∧ om ≤ 59 then some (some ((oh : Int) * 3600 + (om : Int) * 60)) else none
    | _, _ => none
  | '-' :: a :: b :: ':' :: c :: d :: [] =>
    match twoDigits a b, twoDigits c d with
    | some oh, some om =>
      if oh ≤ 23 ∧ om ≤ 59 then some (some (-((oh : Int) * 3600 + (om : Int) * 60))) else none
    | _, _ => none
  | _ => none

/-- `datetime.fromisoformat` on the grammar the input records use:
`YYYY-MM-DDTHH:MM:SS` with an optional `±HH:MM` offset.  A string outside the
grammar or with out-of-range fields raises `ValueError`. -/
def fromisoformat (cs : List Char) : Except PyExc PyDateTime :=
  match cs with
  | a :: b :: c :: d :: '-' :: e :: f :: '-' :: g :: h :: 'T' ::
      i :: j :: ':' :: k :: l :: ':' :: m :: n :: rest =>
    match twoDigits a b, twoDigits c d, twoDigits e f, twoDigits g h,
        twoDigits i j, twoDigits k l, twoDigits m n, parseOffsetChars rest with
    | some yHi, some yLo, some mo, some da, some hh, some mi, some ss, some off =>
      let y : Int := (yHi : Int) * 100 + (yLo : Int)
      if 1 ≤ y ∧ 1 ≤ (mo : Int) ∧ (mo : Int) ≤ 12 ∧ 1 ≤ (da : Int) ∧
          (da : Int) ≤ daysInMonth y (mo : Int) ∧ hh ≤ 23 ∧ mi ≤ 59 ∧ ss ≤ 59 then
        .ok ⟨daysFromCivil y (mo : Int) (da : Int) * 86400 +
              (hh : Int) * 3600 + (mi : Int) * 60 + (ss : Int), off⟩
      else .error .valueError
    | _, _, _, _, _, _, _, _ => .error .valueError
  | _ => .error .valueError

/-- `bandwidth * 8 / 1_000_000`.  Numbers and booleans are numeric in Python
(`True * 8 / 1e6` is `8e-6`); every other value ends in `TypeError` (either at
the multiplication or, for strings and lists, at the division). -/
def pyMulDivNum (v : JValue) : Except PyExc ℚ :=
  match v with
  | .jnum q => .ok (q * 8 / 1000000)
  | .jbool b => .ok ((if b then (1 : ℚ) else 0) * 8 / 1000000)
  | _ => .error .typeError

/-- The numeric coercion underlying `pyMulDivNum`, without the scaling. -/
def pyNum (v : JValue) : Option ℚ :=
  match v with
  | .jnum q => some q
  | .jbool b => some (if b then 1 else 0)
  | _ => none

/-- Outcome of processing one entry of the loader loop. -/
inductive LoadOutcome where
  | ok (m : Measurement)
  | skip
  | crash (e : PyExc)

/-- The loop body's `except (KeyError, ValueError)` clause. -/
def caught : PyExc → Bool
  | .keyError => true
  | .valueError => true
  | _ => false

/-- Sequence one evaluation step of the loop body: a raised exception is
either caught (record skipped) or propagates (run crashes). -/
def step {α : Type} (r : Except PyExc α) (k : α → LoadOutcome) : LoadOutcome :=
  match r with
  | .error e => if caught e then .skip else .crash e
  | .ok a => k a

/-- The body of the loader loop, evaluated in source order:
timestamp, download, upload, ping, packetLoss. -/
def loadEntry (entry : JValue) : LoadOutcome :=
  step (getItem entry "timestamp") fun tv =>
  step (strAttrReplace tv) fun tchars =>
  step (fromisoformat tchars) fun timestamp =>
  step (getItem entry "download") fun dl =>
  step (getItem dl "bandwidth") fun dbw =>
  step (pyMulDivNum dbw) fun download =>
  step (getItem entry "upload") fun ul =>
  step (getItem ul "bandwidth") fun ubw =>
  step (pyMulDivNum ubw) fun upload =>
  step (getItem entry "ping") fun pg =>
  step (getItem pg "latency") fun ping =>
  .ok ⟨timestamp, download, upload, ping, pyGet entry "packetLoss" (.jnum 0)⟩

/-- Abort statuses of the run; each one means exit code 1 with a message on
the error stream and nothing written to standard output. -/
inductive Err where
  | readError
  | uncaught (e : PyExc)
  | invalidTZ (name : String)
  | noData
deriving DecidableEq

/-- The keyword arguments of `main`, with the `argparse` defaults. -/
structure Args where
  show_all : Bool := false
  height_px : Int := 300
  width_px : Option Int := none
  tz_override : Option String := none
  max_mbps : Option ℚ := none
  last_hours : Option Int := none

/-- Python truthiness of an optional integer argument (`if last_hours:`,
`if width_px:`): false for absent and for zero. -/
def truthyInt : Option Int → Bool
  | none => false
  | some n => decide (n ≠ 0)

/-- The input file: `none` models a failure to open the file, and a `none`
line models a line `json.loads` rejects as malformed JSON. -/
def parsePhase (input : Option (List (Option JValue))) : Except Err (List JValue) :=
  match input with
  | none => .error .readError
  | some lines =>
    if lines.all Option.isSome then .ok (lines.filterMap id) else .error .readError

/-- The loader loop over all parsed entries: skipped entries are dropped,
an uncaught exception aborts the run. -/
def loadPhase : List JValue → Except Err (List Measurement)
  | [] => .ok []
  | e :: rest =>
    match loadEntry e with
    | .ok m => (loadPhase rest).map (fun ms => m :: ms)
    | .skip => loadPhase rest
    | .crash exc => .error (.uncaught exc)

/-- Sort key of a `datetime` under Python comparison within a column of one
kind: the instant for aware values, the wall time for naive values. -/
def sortKey (m : Measurement) : Int :=
  match m.timestamp.off with
  | some o => m.timestamp.wall - o
  | none => m.timestamp.wall

def insertByKey (r : Measurement) : List Measurement → List Measurement
  | [] => [r]
  | x :: xs => if sortKey r ≤ sortKey x then r :: x :: xs else x :: insertByKey r xs

def sortByKey (l : List Measurement) : List Measurement :=
  l.foldr insertByKey []

/-- `df = pd.DataFrame(records); df.sort_values("timestamp")`.  An empty
record list builds a frame without a `timestamp` column, so `sort_values`
raises an uncaught `KeyError`; a mix of naive and aware datetimes gives an
object-dtype column whose sort comparisons raise an uncaught `TypeError`. -/
def sortPhase (recs : List Measurement) : Except Err (List Measurement) :=
  if recs.isEmpty then .error (.uncaught .keyError)
  else if (recs.any fun r => decide (r.timestamp.off = none)) &&
      (recs.any fun r => decide (r.timestamp.off ≠ none)) then
    .error (.uncaught .typeError)
  else .ok (sortByKey recs)

/-- `tz_override or os.environ.get("TZ", "UTC")` where the operands follow
Python truthiness: an empty-string override falls through to the
environment. -/
def envDefault : Option String → String
  | some e => e
  | none => "UTC"

def resolveTzName (ov env : Option String) : String :=
  match ov with
  | some s => if s = "" then envDefault env else s
  | none => envDefault env

/-- Modelled abstraction of the `zoneinfo` database (a library external to the
repository): a finite table of fixed offsets in seconds, DST ignored.  An
unknown name models `ZoneInfoNotFoundError`. -/
def zoneOffset (name : String) : Option Int :=
  if name = "UTC" ∨ name = "Etc/UTC" then some 0
  else if name = "Australia/Sydney" then some 36000
  else if name = "America/New_York" then some (-18000)
  else if name = "Etc/GMT-1" then some 3600
  else none

/-- A row of the frame after `tz_convert`: the timestamp is an instant and
the column's display timezone is carried separately. -/
structure ConvMeas where
  instant : Int
  download_mbps : ℚ
  upload_mbps : ℚ
  latency_ms : JValue
  packet_loss_percent : JValue

def awareInstant (m : Measurement) : Int :=
  match m.timestamp.off with
  | some o => m.timestamp.wall - o
  | none => m.timestamp.wall

def allSameOffset : List Measurement → Bool
  | [] => true
  | x :: xs => xs.all fun y => decide (y.timestamp.off = x.timestamp.off)

/-- The `try` block of lines 46-51: `zoneinfo.ZoneInfo(tz_name)` followed by
`df["timestamp"].dt.tz_convert(tzinfo)`.  Any exception in the block is
reported as `Invalid TZ setting` and exits with code 1: an unknown zone name,
a naive column (`tz_convert` raises `TypeError`), or an object-dtype column
from aware datetimes with unequal offsets (`.dt` raises `AttributeError`). -/
def tzPhase (args : Args) (env : Option String) (sorted : List Measurement) :
    Except Err (Int × List ConvMeas) :=
  let name := resolveTzName args.tz_override env
  match zoneOffset name with
  | none => .error (.invalidTZ name)
  | some tzoff =>
    if sorted.any fun r => decide (r.timestamp.off = none) then .error (.invalidTZ name)
    else if ! allSameOffset sorted then .error (.invalidTZ name)
    else .ok (tzoff, sorted.map fun r =>
      ⟨awareInstant r, r.download_mbps, r.upload_mbps, r.latency_ms, r.packet_loss_percent⟩)

/-- `ts.normalize()` on an instant displayed in timezone offset `tzoff`:
midnight of the local day, as an instant. -/
def codeNormalize (tzoff i : Int) : Int :=
  Int.fdiv (i + tzoff) 86400 * 86400 - tzoff

/-- Local date (day number) of an instant displayed at offset `tzoff`. -/
def localDate (tzoff i : Int) : Int :=
  Int.fdiv (i + tzoff) 86400

/-- Lines 55-60: the three filter modes.  `last_hours` wins when truthy;
otherwise the today filter applies unless `show_all`; comparisons between
aware timestamps compare instants. -/
def codeFilter (args : Args) (tzoff now : Int) (rows : List ConvMeas) : List ConvMeas :=
  if truthyInt args.last_hours then
    rows.filter fun r => decide (now - args.last_hours.getD 0 * 3600 ≤ r.instant)
  else if ! args.show_all then
    rows.filter fun r => decide (codeNormalize tzoff r.instant = codeNormalize tzoff now)
  else rows

/-- `int(a / b)` for integers under Python: true division then truncation
toward zero (`b` is positive on every call site). -/
def pyIntTruncDiv (a b : Int) : Int :=
  if 0 ≤ a then a / b else -((-a) / b)

/-- `int(np.ceil(a / b))`: the ceiling of the exact quotient. -/
def pyCeilDiv (a b : Int) : Int :=
  -(Int.fdiv (-a) b)

def pad2 (n : Nat) : String :=
  if n < 10 then "0" ++ toString n else toString n

/-- `ts.strftime("%H:%M")` of an instant displayed at offset `tzoff`. -/
def fmtHM (tzoff instant : Int) : String :=
  let w := Int.fmod (instant + tzoff) 86400
  pad2 (Int.fdiv w 3600).toNat ++ ":" ++ pad2 (Int.fdiv (Int.fmod w 3600) 60).toNat

/-- Lines 113-121: label thinning in fixed-width mode.
`max_labels = int(width_px / 80)`; when the label count exceeds it, the stride
`int(np.ceil(label_count / max_labels))` divides by `max_labels`, raising an
uncaught `ZeroDivisionError` when that is zero. -/
def computeLabels (width tzoff : Int) (stamps : List Int) : Except PyExc (List String) :=
  let labelCount : Int := stamps.length
  let maxLabels := pyIntTruncDiv width 80
  if labelCount > maxLabels then
    if maxLabels = 0 then .error .zeroDivisionError
    else
      let interval := pyCeilDiv labelCount maxLabels
      .ok ((stamps.enum.map fun p =>
        if Int.fmod (p.fst : Int) interval = 0 then fmtHM tzoff p.snd else ""))
  else .ok (stamps.map fun t => fmtHM tzoff t)

/-- The rendered chart, as the data that determines the emitted image:
figure geometry, axis mode, plotted rows, tick labels, and the fixed
throughput bound.  The base64 PNG line on stdout is a function of these. -/
structure Output where
  fig_width_in : ℚ
  fig_height_in : ℚ
  index_mode : Bool
  rows : List ConvMeas
  tick_labels : Option (List String)
  max_mbps : Option ℚ

/-- Lines 66-124: figure sizing, axis mode and tick labels.  Fixed-width mode
is taken when `width_px` is truthy; label thinning can abort with an uncaught
`ZeroDivisionError`. -/
def renderPhase (args : Args) (tzoff : Int) (rows : List ConvMeas) : Except Err Output :=
  let figH : ℚ := (args.height_px : ℚ) / 100
  if truthyInt args.width_px then
    match computeLabels (args.width_px.getD 0) tzoff (rows.map fun r => r.instant) with
    | .error e => .error (.uncaught e)
    | .ok ls => .ok ⟨(args.width_px.getD 0 : ℚ) / 100, figH, true, rows, some ls, args.max_mbps⟩
  else .ok ⟨max 10 ((rows.length : ℚ) * (1 / 2)), figH, false, rows, none, args.max_mbps⟩

/-- The whole of `main`: `now` is the clock reading (an instant in seconds)
and `env` the ambient `TZ` variable.  `Except.error` means exit code 1 with a
message on standard error and nothing on standard output; `Except.ok` means
exit code 0 with the data-URI image line. -/
def run (input : Option (List (Option JValue))) (args : Args) (env : Option String)
    (now : Int) : Except Err Output :=
  match parsePhase input with
  | .error e => .error e
  | .ok entries =>
  match loadPhase entries with
  | .error e => .error e
  | .ok recs =>
  match sortPhase recs with
  | .error e => .error e
  | .ok sorted =>
  match tzPhase args env sorted with
  | .error e => .error e
  | .ok (tzoff, conv) =>
  let filtered := codeFilter args tzoff now conv
  if filtered.isEmpty then .error .noData
  else renderPhase args tzoff filtered

/-- The loaded record set, when the run gets past the loader. -/
def loadedRecords (input : Option (List (Option JValue))) : Option (List Measurement) :=
  match parsePhase input with
  | .error _ => none
  | .ok es =>
    match loadPhase es with
    | .error _ => none
    | .ok rs => some rs

/-- The record set after filtering, when the run reaches the filter. -/
def filteredRecords (input : Option (List (Option JValue))) (args : Args)
    (env : Option String) (now : Int) : Option (List ConvMeas) :=
  match loadedRecords input with
  | none => none
  | some recs =>
    match sortPhase recs with
    | .error _ => none
    | .ok sorted =>
      match tzPhase args env sorted with
      | .error _ => none
      | .ok (tzoff, conv) => some (codeFilter args tzoff now conv)

/-- The numeric value stored at `entry[key]["bandwidth"]`, when the path
exists and holds a Python-numeric value (number or boolean). -/
def bandwidthNum (e : JValue) (key : String) : Option ℚ :=
  match getItem e key with
  | .ok v =>
    match getItem v "bandwidth" with
    | .ok w => pyNum w
    | .error _ => none
  | .error _ => none

/-- Spec-side filter for the `last_hours = N` mode, following the spec's
words: keep rows with timestamp ≥ (now − N hours). -/
def specLastHoursKeep (n now : Int) (rows : List ConvMeas) : List ConvMeas :=
  rows.filter fun r => decide (now - n * 3600 ≤ r.instant)

/-- Spec-side timezone resolution, following the spec's words: the explicit
override if present, else the `TZ` variable if present, else UTC. -/
def specResolveTz (ov env : Option String) : String :=
  ov.getD (env.getD "UTC")

/-- A fully well-formed input record (timestamp `2024-05-01T10:00:00+00:00`,
download 1 250 000 B/s, upload 625 000 B/s, latency 12 ms). -/
def goodEntry : JValue :=
  .jobj [("timestamp", .jstr "2024-05-01T10:00:00+00:00"),
         ("download", .jobj [("bandwidth", .jnum 1250000)]),
         ("upload", .jobj [("bandwidth", .jnum 625000)]),
         ("ping", .jobj [("latency", .jnum 12)])]

/-- Wall seconds of 2024-05-01T10:00:00 (day number 19844 since the epoch);
with offset `+00:00` this is also the instant. -/
def goodWall : Int := 19844 * 86400 + 36000

/-- The measurement the loader builds from `goodEntry`. -/
def goodMeas : Measurement :=
  ⟨⟨goodWall, some 0⟩, 1250000 * 8 / 1000000, 625000 * 8 / 1000000, .jnum 12, .jnum 0⟩

/-- Syntactically valid JSON, but `download.bandwidth` is `null`:
`None * 8` raises `TypeError`, which the loader loop does not catch. -/
def nullBandEntry : JValue :=
  .jobj [("timestamp", .jstr "2024-05-01T10:05:00Z"),
         ("download", .jobj [("bandwidth", .jnull)]),
         ("upload", .jobj [("bandwidth", .jnum 625000)]),
         ("ping", .jobj [("latency", .jnum 12)])]

/-- Valid except that the `download` key is missing entirely:
the subscription raises `KeyError`, which the loop catches. -/
def missingKeyEntry : JValue :=
  .jobj [("timestamp", .jstr "2024-05-01T10:05:00Z"),
         ("upload", .jobj [("bandwidth", .jnum 625000)]),
         ("ping", .jobj [("latency", .jnum 12)])]

/-- Well-formed except that the timestamp string carries no UTC offset, so
`fromisoformat` yields a timezone-naive datetime. -/
def naiveEntry : JValue :=
  .jobj [("timestamp", .jstr "2024-05-01T09:00:00"),
         ("download", .jobj [("bandwidth", .jnum 1250000)]),
         ("upload", .jobj [("bandwidth", .jnum 625000)]),
         ("ping", .jobj [("latency", .jnum 12)])]

/-- The measurement the loader builds from `naiveEntry`: the wall time is
2024-05-01T09:00:00 and the offset is absent. -/
def naiveMeas : Measurement :=
  ⟨⟨19844 * 86400 + 32400, none⟩, 1250000 * 8 / 1000000, 625000 * 8 / 1000000,
    .jnum 12, .jnum 0⟩

/-- A converted row on day 1 of the epoch (instant 90000 = day 1, 01:00 UTC). -/
def rowTomorrow : ConvMeas := ⟨90000, 10, 5, .jnum 12, .jnum 0⟩

/-- A converted row with instant 9000 and one with instant 2000, used to
exercise the rolling-window filter around `now = 10000`. -/
def rowRecent : ConvMeas := ⟨9000, 10, 5, .jnum 12, .jnum 0⟩

def rowOld : ConvMeas := ⟨2000, 10, 5, .jnum 12, .jnum 0⟩

/-- Arguments `--last-hours 0`: truthiness sends the filter to today mode. -/
def argsLastHoursZero : Args := { last_hours := some 0 }

/-- Arguments `--last-hours 2`. -/
def argsLastHoursTwo : Args := { last_hours := some 2 }

/-- Arguments `--all --width 79`. -/
def argsWidth79 : Args := { show_all := true, width_px := some 79 }

/-- Arguments `--tz "Nonexistent/Zone"`. -/
def argsBadTz : Args := { tz_override := some "Nonexistent/Zone" }

theorem step_ok {α : Type} {r : Except PyExc α} {k : α → LoadOutcome} {m : Measurement}
    (h : step r k = LoadOutcome.ok m) : ∃ a, r = Except.ok a ∧ k a = LoadOutcome.ok m := by
  cases r with
  | error e =>
    cases hce : caught e <;> simp [step, hce] at h
  | ok a => exact ⟨a, rfl, h⟩

theorem pyMulDivNum_ok {v : JValue} {q : ℚ} (h : pyMulDivNum v = Except.ok q) :
    ∃ d, pyNum v = some d ∧ q = d * 8 / 1000000 := by
  cases v with
  | jnum a =>
    refine ⟨a, rfl, ?_⟩
    injection h with h2
    exact h2.symm
  | jbool b =>
    refine ⟨if b then 1 else 0, rfl, ?_⟩
    injection h with h2
    exact h2.symm
  | jnull => exact Except.noConfusion h
  | jstr s => exact Except.noConfusion h
  | jarr xs => exact Except.noConfusion h
  | jobj fs => exact Except.noConfusion h

theorem length_insertByKey (r : Measurement) (l : List Measurement) :
    (insertByKey r l).length = l.length + 1 := by
  induction l with
  | nil => rfl
  | cons x xs ih =>
    unfold insertByKey
    split
    · rfl
    · simp only [List.length_cons, ih]

theorem all_insertByKey {p : Measurement → Bool} {r : Measurement} {l : List Measurement}
    (hr : p r = true) (hl : l.all p = true) : (insertByKey r l).all p = true := by
  induction l with
  | nil => simp [insertByKey, hr]
  | cons x xs ih =>
    simp only [List.all_cons, Bool.and_eq_true] at hl
    unfold insertByKey
    split
    · simp [hr, hl.1, hl.2]
    · simp [hl.1, ih hl.2]

theorem sortByKey_cons (x : Measurement) (xs : List Measurement) :
    sortByKey (x :: xs) = insertByKey x (sortByKey xs) := rfl

theorem all_sortByKey {p : Measurement → Bool} {l : List Measurement}
    (h : l.all p = true) : (sortByKey l).all p = true := by
  induction l with
  | nil => simp [sortByKey]
  | cons x xs ih =>
    simp only [List.all_cons, Bool.and_eq_true] at h
    rw [sortByKey_cons]
    exact all_insertByKey h.1 (ih h.2)

theorem length_sortByKey (l : List Measurement) : (sortByKey l).length = l.length := by
  induction l with
  | nil => rfl
  | cons x xs ih => rw [sortByKey_cons, length_insertByKey, ih, List.length_cons]

theorem any_of_all_ne_nil {p : Measurement → Bool} {l : List Measurement}
    (hne : l ≠ []) (h : l.all p = true) : l.any p = true := by
  cases l with
  | nil => exact absurd rfl hne
  | cons x xs =>
    simp only [List.all_cons, Bool.and_eq_true] at h
    simp [List.any_cons, h.1]

/-- Claim C1, counterexample: an input of one fully valid line followed by a
syntactically valid line whose `download.bandwidth` is `null` (a non-numeric
value for a required key).  The claim says that line is skipped individually
without aborting; in fact `None * 8` raises `TypeError`, which the loader's
`except (KeyError, ValueError)` does not catch, and the whole run aborts. -/
theorem C1_counterexample :
    run (some [some goodEntry, some nullBandEntry]) {} none 0 =
      Except.error (Err.uncaught PyExc.typeError) := rfl

/-- Claim C1 as amended: a syntactically valid line is skipped individually
exactly when its field evaluation raises `KeyError` (a missing required key
whose earlier fields are well-typed) or `ValueError` (an unparseable
timestamp string); such a line is excluded from the loaded record set and the
load of the remaining lines proceeds unchanged.  Non-numeric values for the
required keys are not in general skipped: they can raise an uncaught
`TypeError` or `AttributeError` that aborts the run. -/
theorem C1_skipped_line_excluded (pre post : List JValue) (e : JValue)
    (h : loadEntry e = LoadOutcome.skip) :
    loadPhase (pre ++ e :: post) = loadPhase (pre ++ post) := by
  induction pre with
  | nil => simp [loadPhase, h]
  | cons a t ih =>
    simp only [List.cons_append, loadPhase, List.append_eq]
    rw [ih]

theorem C1_witness :
    loadEntry missingKeyEntry = LoadOutcome.skip ∧
      loadPhase ([goodEntry] ++ missingKeyEntry :: []) = loadPhase ([goodEntry] ++ []) :=
  ⟨rfl, C1_skipped_line_excluded [goodEntry] [] missingKeyEntry rfl⟩

/-- Claim C2, counterexample: a filtered data set of one point rendered with
`--width 79`: `max_labels = int(79 / 80) = 0` and `label_count = 1 > 0`, so
`int(np.ceil(label_count / max_labels))` divides by zero and the run aborts
with an uncaught `ZeroDivisionError`, contradicting "does not divide by zero
for any given `width_px`". -/
theorem C2_counterexample :
    run (some [some goodEntry]) argsWidth79 none 0 =
      Except.error (Err.uncaught PyExc.zeroDivisionError) := rfl

/-- Claim C2 as amended: with zero data points the rendering path is never
reached (the run already aborted), and with one data point the stride
computation divides only when the label count exceeds
`max_labels = int(width_px / 80)`; for `width_px ≥ 80` that never happens
with one point, so no division by zero occurs and label computation
succeeds.  For `1 ≤ width_px < 80`, `max_labels` is zero and the stride
computation raises `ZeroDivisionError`. -/
theorem C2_one_point_stride_safe (w tzoff t : Int) (h : 80 ≤ w) :
    ∃ ls, computeLabels w tzoff [t] = Except.ok ls := by
  refine ⟨[fmtHM tzoff t], ?_⟩
  have hml : 1 ≤ pyIntTruncDiv w 80 := by
    unfold pyIntTruncDiv
    rw [if_pos (by omega)]
    omega
  simp only [computeLabels, List.length_cons, List.length_nil]
  rw [if_neg (by push_cast; omega)]
  rfl

theorem C2_witness :
    (80 : Int) ≤ 80 ∧ ∃ ls, computeLabels 80 0 [0] = Except.ok ls :=
  ⟨by decide, C2_one_point_stride_safe 80 0 0 (by decide)⟩

/-- Claim C3, counterexample: with `--last-hours 0` the spec-side filter
keeps every row with timestamp ≥ now, but `if last_hours:` is falsy at 0, so
the code falls through to the today filter and drops a row dated tomorrow. -/
theorem C3_counterexample :
    codeFilter argsLastHoursZero 0 0 [rowTomorrow] ≠
      specLastHoursKeep 0 0 [rowTomorrow] := fun h => nomatch h

/-- Claim C3 as amended: for every nonzero integer N passed as `last_hours`
(and any `show_all`, timezone and row set) the filter keeps exactly the rows
with timestamp ≥ (now − N hours); the rolling-window mode takes priority over
the `show_all` and today-only modes.  At N = 0 the argument is falsy and the
today/all modes apply instead. -/
theorem C3_last_hours_filter (args : Args) (tzoff now : Int) (rows : List ConvMeas)
    (n : Int) (h1 : args.last_hours = some n) (h2 : n ≠ 0) :
    codeFilter args tzoff now rows = specLastHoursKeep n now rows := by
  unfold codeFilter specLastHoursKeep
  rw [h1]
  simp [truthyInt, h2]

theorem C3_witness :
    argsLastHoursTwo.last_hours = some 2 ∧ (2 : Int) ≠ 0 ∧
      codeFilter argsLastHoursTwo 0 10000 [rowRecent, rowOld] =
        specLastHoursKeep 2 10000 [rowRecent, rowOld] :=
  ⟨rfl, by decide, C3_last_hours_filter argsLastHoursTwo 0 10000 [rowRecent, rowOld] 2 rfl
    (by decide)⟩

/-- Claim C4, confirmed: with `show_all = false` and `last_hours` unset the
filter keeps exactly the rows whose timestamp truncated to the day in the
column's timezone equals the local date of `now`:
the code compares `ts.normalize() == now.normalize()` on instants, which is
equivalent to equality of the local day numbers. -/
theorem C4_today_filter (args : Args) (tzoff now : Int) (rows : List ConvMeas)
    (h1 : args.last_hours = none) (h2 : args.show_all = false) :
    codeFilter args tzoff now rows =
      rows.filter fun r => decide (localDate tzoff r.instant = localDate tzoff now) := by
  unfold codeFilter
  rw [h1, h2]
  simp only [truthyInt, Bool.not_false, if_true, if_false, Bool.false_eq_true]
  apply List.filter_congr
  intro r _
  rw [decide_eq_decide]
  unfold codeNormalize localDate
  constructor
  · intro h
    have h3 : Int.fdiv (r.instant + tzoff) 86400 * 86400 =
        Int.fdiv (now + tzoff) 86400 * 86400 := by omega
    exact mul_right_cancel₀ (by norm_num) h3
  · intro h
    rw [h]

theorem C4_witness :
    (Args.last_hours {} = none) ∧ (Args.show_all {} = false) ∧
      codeFilter {} 0 45000 [rowTomorrow, rowRecent] =
        List.filter (fun r => decide (localDate 0 r.instant = localDate 0 45000))
          [rowTomorrow, rowRecent] :=
  ⟨rfl, rfl, C4_today_filter {} 0 45000 [rowTomorrow, rowRecent] rfl rfl⟩

/-- Claim C5, counterexample: an explicit but empty `--tz ""` override
together with `TZ=Australia/Sydney`.  The spec-side resolution order uses the
present override (the empty string); the code's `tz_override or
os.environ.get("TZ", "UTC")` treats the empty string as falsy and uses the
environment value instead. -/
theorem C5_counterexample :
    resolveTzName (some "") (some "Australia/Sydney") ≠
      specResolveTz (some "") (some "Australia/Sydney") := by decide

/-- Claim C5 as amended: the timezone is resolved in the order: explicit
override when present and non-empty, else the `TZ` variable when present,
else UTC (an empty-string override is falsy and falls through); and whenever
the resolved name is not a recognized timezone, the conversion phase fails
with the `Invalid TZ setting` error, i.e. exit code 1 with a message on the
error stream and nothing on standard output. -/
theorem C5_tz_resolution :
    (∀ ov env : Option String, ov ≠ some "" →
      resolveTzName ov env = specResolveTz ov env) ∧
    (∀ (args : Args) (env : Option String) (sorted : List Measurement),
      zoneOffset (resolveTzName args.tz_override env) = none →
      tzPhase args env sorted =
        Except.error (Err.invalidTZ (resolveTzName args.tz_override env))) := by
  constructor
  · intro ov env hne
    cases ov with
    | none => cases env <;> rfl
    | some s =>
      have hs : s ≠ "" := fun h => hne (by rw [h])
      show (if s = "" then envDefault env else s) = (some s).getD (env.getD "UTC")
      rw [if_neg hs]
      rfl
  · intro args env sorted h
    unfold tzPhase
    simp only [h]

theorem C5_witness :
    ((some "Australia/Sydney" : Option String) ≠ some "" ∧
      resolveTzName (some "Australia/Sydney") none =
        specResolveTz (some "Australia/Sydney") none) ∧
    (zoneOffset (resolveTzName argsBadTz.tz_override none) = none ∧
      tzPhase argsBadTz none [] =
        Except.error (Err.invalidTZ (resolveTzName argsBadTz.tz_override none))) :=
  ⟨⟨by decide, C5_tz_resolution.1 (some "Australia/Sydney") none (by decide)⟩,
   ⟨rfl, C5_tz_resolution.2 argsBadTz none [] rfl⟩⟩

/-- Claim C6, confirmed: whenever the record set is empty after filtering —
including an entirely empty input file or one whose lines were all skipped,
where the empty frame already aborts at `sort_values` — the run ends in an
error, i.e. exit code 1 with nothing written to standard output. -/
theorem C6_empty_after_filter_errors (input : Option (List (Option JValue)))
    (args : Args) (env : Option String) (now : Int)
    (h : loadedRecords input = some [] ∨ filteredRecords input args env now = some []) :
    ∃ e, run input args env now = Except.error e := by
  rcases h with h | h
  · unfold loadedRecords at h
    cases hp : parsePhase input with
    | error e => simp [hp] at h
    | ok es =>
      simp only [hp] at h
      cases hl : loadPhase es with
      | error e => simp [hl] at h
      | ok rs =>
        simp only [hl, Option.some.injEq] at h
        subst h
        refine ⟨Err.uncaught PyExc.keyError, ?_⟩
        unfold run
        simp only [hp, hl]
        rfl
  · unfold filteredRecords at h
    cases hL : loadedRecords input with
    | none => simp [hL] at h
    | some recs =>
      simp only [hL] at h
      cases hs : sortPhase recs with
      | error e => simp [hs] at h
      | ok sorted =>
        simp only [hs] at h
        cases ht : tzPhase args env sorted with
        | error e => simp [ht] at h
        | ok p =>
          obtain ⟨tzoff, conv⟩ := p
          simp only [ht, Option.some.injEq] at h
          unfold loadedRecords at hL
          cases hp : parsePhase input with
          | error e => simp [hp] at hL
          | ok es =>
            simp only [hp] at hL
            cases hl : loadPhase es with
            | error e => simp [hl] at hL
            | ok rs =>
              simp only [hl, Option.some.injEq] at hL
              subst hL
              refine ⟨Err.noData, ?_⟩
              unfold run
              simp only [hp, hl, hs, ht, h, List.isEmpty_nil, if_true]

theorem C6_witness :
    (loadedRecords (some []) = some [] ∨ filteredRecords (some []) {} none 0 = some []) ∧
      ∃ e, run (some []) {} none 0 = Except.error e :=
  ⟨Or.inl rfl, C6_empty_after_filter_errors (some []) {} none 0 (Or.inl rfl)⟩

/-- Claim C7, confirmed: any input file with at least one line that is not
syntactically valid JSON aborts the whole run with the file-reading error
path: exit code 1, a message on standard error, nothing on standard output. -/
theorem C7_malformed_line_aborts (lines : List (Option JValue)) (args : Args)
    (env : Option String) (now : Int) (h : Option.none ∈ lines) :
    run (some lines) args env now = Except.error Err.readError := by
  have hall : lines.all Option.isSome = false := by
    cases hb : lines.all Option.isSome with
    | false => rfl
    | true =>
      rw [List.all_eq_true] at hb
      exact absurd (hb _ h) (by simp)
  unfold run parsePhase
  simp [hall]

theorem C7_witness :
    Option.none ∈ [Option.none (α := JValue)] ∧
      run (some [Option.none]) {} none 0 = Except.error Err.readError :=
  ⟨by simp, C7_malformed_line_aborts [Option.none] {} none 0 (by simp)⟩

/-- Claim C8, confirmed: every record the loader accepts has
`download_mbps` equal to the numeric value of `download.bandwidth` times 8
divided by 1 000 000, exactly, as rationals, and likewise `upload_mbps` for
`upload.bandwidth`. -/
theorem C8_mbps_scaling (e : JValue) (m : Measurement)
    (h : loadEntry e = LoadOutcome.ok m) :
    ∃ d u, bandwidthNum e "download" = some d ∧ bandwidthNum e "upload" = some u ∧
      m.download_mbps = d * 8 / 1000000 ∧ m.upload_mbps = u * 8 / 1000000 := by
  unfold loadEntry at h
  obtain ⟨tv, h1, h⟩ := step_ok h
  obtain ⟨tc, h2, h⟩ := step_ok h
  obtain ⟨ts, h3, h⟩ := step_ok h
  obtain ⟨dl, h4, h⟩ := step_ok h
  obtain ⟨dbw, h5, h⟩ := step_ok h
  obtain ⟨dq, h6, h⟩ := step_ok h
  obtain ⟨ul, h7, h⟩ := step_ok h
  obtain ⟨ubw, h8, h⟩ := step_ok h
  obtain ⟨uq, h9, h⟩ := step_ok h
  obtain ⟨pg, h10, h⟩ := step_ok h
  obtain ⟨ping, h11, h⟩ := step_ok h
  injection h with h
  subst h
  obtain ⟨d, hd, hdq⟩ := pyMulDivNum_ok h6
  obtain ⟨u, hu, huq⟩ := pyMulDivNum_ok h9
  refine ⟨d, u, ?_, ?_, hdq, huq⟩
  · unfold bandwidthNum
    simp only [h4, h5, hd]
  · unfold bandwidthNum
    simp only [h7, h8, hu]

theorem C8_witness :
    loadEntry goodEntry = LoadOutcome.ok goodMeas ∧
      ∃ d u, bandwidthNum goodEntry "download" = some d ∧
        bandwidthNum goodEntry "upload" = some u ∧
        goodMeas.download_mbps = d * 8 / 1000000 ∧
        goodMeas.upload_mbps = u * 8 / 1000000 :=
  ⟨rfl, C8_mbps_scaling goodEntry goodMeas rfl⟩

/-- Claim C9, counterexample: two runs with identical file contents,
identical arguments and identical ambient `TZ`, but executed at different
wall-clock instants: the first (same local day as the record) succeeds, the
second (four days later) filters everything out and exits with an error, so
"identical input and arguments" alone do not determine the result. -/
theorem C9_counterexample :
    run (some [some goodEntry]) {} none (goodWall + 3600) ≠
      run (some [some goodEntry]) {} none (goodWall + 4 * 86400) := fun h => nomatch h

/-- Claim C9 as amended: the run is a pure function of the input file
contents, the command-line arguments, the ambient `TZ` variable and the
clock reading; two runs agreeing on all four produce the same result.
(The clock — and, when no `--tz` is given, the `TZ` variable — genuinely
influences the result, so they must be part of the statement.) -/
theorem C9_run_deterministic (input1 input2 : Option (List (Option JValue)))
    (args1 args2 : Args) (env1 env2 : Option String) (now1 now2 : Int)
    (hi : input1 = input2) (ha : args1 = args2) (he : env1 = env2) (hn : now1 = now2) :
    run input1 args1 env1 now1 = run input2 args2 env2 now2 := by
  rw [hi, ha, he, hn]

theorem C9_witness :
    (some [some goodEntry] : Option (List (Option JValue))) = some [some goodEntry] ∧
      ({} : Args) = {} ∧ (none : Option String) = none ∧ (0 : Int) = 0 ∧
      run (some [some goodEntry]) {} none 0 = run (some [some goodEntry]) {} none 0 :=
  ⟨rfl, rfl, rfl, rfl,
    C9_run_deterministic (some [some goodEntry]) (some [some goodEntry]) {} {} none none 0 0
      rfl rfl rfl rfl⟩

/-- Claim C10, counterexample: an input with one aware and one naive
otherwise-valid record.  The run does abort, but not via the
invalid-timezone error path: the mixed column is object-dtype and
`sort_values` raises an uncaught `TypeError` before the timezone code runs. -/
theorem C10_counterexample :
    run (some [some goodEntry, some naiveEntry]) {} none 0 =
        Except.error (Err.uncaught PyExc.typeError) ∧
      Err.uncaught PyExc.typeError ≠ Err.invalidTZ "UTC" :=
  ⟨rfl, fun h => nomatch h⟩

/-- Claim C10 as amended: a timezone-naive timestamp among otherwise-valid
records always aborts the run with exit code 1 and is never skipped
individually; the abort goes through the invalid-timezone error path when
every loaded record is naive (`tz_convert` raises inside the guarded block),
but through an uncaught `TypeError` in `sort_values` when naive and aware
records are mixed. -/
theorem C10_naive_timestamp_aborts :
    (∀ (input : Option (List (Option JValue))) (args : Args) (env : Option String)
        (now : Int) (rs : List Measurement),
      loadedRecords input = some rs → rs ≠ [] →
      (∀ r ∈ rs, r.timestamp.off = none) →
      run input args env now =
        Except.error (Err.invalidTZ (resolveTzName args.tz_override env))) ∧
    (∀ (input : Option (List (Option JValue))) (args : Args) (env : Option String)
        (now : Int) (rs : List Measurement),
      loadedRecords input = some rs →
      (∃ r ∈ rs, r.timestamp.off = none) → (∃ r ∈ rs, r.timestamp.off ≠ none) →
      run input args env now = Except.error (Err.uncaught PyExc.typeError)) := by
  constructor
  · intro input args env now rs hload hne hall
    unfold loadedRecords at hload
    cases hp : parsePhase input with
    | error e => simp [hp] at hload
    | ok es =>
      simp only [hp] at hload
      cases hl : loadPhase es with
      | error e => simp [hl] at hload
      | ok rs0 =>
        simp only [hl, Option.some.injEq] at hload
        subst hload
        have hempty : rs0.isEmpty = false := by
          cases rs0 with
          | nil => exact absurd rfl hne
          | cons a l => rfl
        have hallb : rs0.all (fun r => decide (r.timestamp.off = none)) = true := by
          rw [List.all_eq_true]
          intro r hr
          simpa using hall r hr
        have hanyaware : (rs0.any fun r => decide (r.timestamp.off ≠ none)) = false := by
          cases hb : rs0.any fun r => decide (r.timestamp.off ≠ none) with
          | false => rfl
          | true =>
            rw [List.any_eq_true] at hb
            obtain ⟨r, hr, hrb⟩ := hb
            rw [decide_eq_true_eq] at hrb
            exact absurd (hall r hr) hrb
        have hsort : sortPhase rs0 = Except.ok (sortByKey rs0) := by
          unfold sortPhase
          rw [hempty, hanyaware]
          simp
        have hnaive2 : ((sortByKey rs0).any fun r => decide (r.timestamp.off = none)) = true := by
          apply any_of_all_ne_nil
          · intro hnil
            have hlen := length_sortByKey rs0
            rw [hnil] at hlen
            cases rs0 with
            | nil => exact absurd rfl hne
            | cons a l => simp at hlen
          · exact all_sortByKey hallb
        unfold run
        simp only [hp, hl, hsort]
        unfold tzPhase
        cases hz : zoneOffset (resolveTzName args.tz_override env) with
        | none => simp only [hz]
        | some tzoff => simp only [hz, hnaive2, if_true]
  · intro input args env now rs hload hnv haw
    obtain ⟨r1, hr1, hr1n⟩ := hnv
    obtain ⟨r2, hr2, hr2a⟩ := haw
    unfold loadedRecords at hload
    cases hp : parsePhase input with
    | error e => simp [hp] at hload
    | ok es =>
      simp only [hp] at hload
      cases hl : loadPhase es with
      | error e => simp [hl] at hload
      | ok rs0 =>
        simp only [hl, Option.some.injEq] at hload
        subst hload
        have hempty : rs0.isEmpty = false := by
          cases rs0 with
          | nil => exact absurd hr1 (by simp)
          | cons a l => rfl
        have hmix : ((rs0.any fun r => decide (r.timestamp.off = none)) &&
            (rs0.any fun r => decide (r.timestamp.off ≠ none))) = true := by
          rw [Bool.and_eq_true]
          constructor
          · rw [List.any_eq_true]
            exact ⟨r1, hr1, by simp [hr1n]⟩
          · rw [List.any_eq_true]
            exact ⟨r2, hr2, by simp [hr2a]⟩
        have hsort : sortPhase rs0 = Except.error (Err.uncaught PyExc.typeError) := by
          unfold sortPhase
          rw [hempty, hmix]
          simp
        unfold run
        simp only [hp, hl, hsort]

theorem C10_witness :
    (loadedRecords (some [some naiveEntry]) = some [naiveMeas] ∧
      ([naiveMeas] : List Measurement) ≠ [] ∧
      (∀ r ∈ [naiveMeas], r.timestamp.off = none) ∧
      run (some [some naiveEntry]) {} none 0 = Except.error (Err.invalidTZ "UTC")) ∧
    (loadedRecords (some [some goodEntry, some naiveEntry]) = some [goodMeas, naiveMeas] ∧
      (∃ r ∈ [goodMeas, naiveMeas], r.timestamp.off = none) ∧
      (∃ r ∈ [goodMeas, naiveMeas], r.timestamp.off ≠ none) ∧
      run (some [some goodEntry, some naiveEntry]) {} none 0 =
        Except.error (Err.uncaught PyExc.typeError)) :=
  ⟨⟨rfl, by simp, by decide,
    C10_naive_timestamp_aborts.1 (some [some naiveEntry]) {} none 0 [naiveMeas]
      rfl (by simp) (by decide)⟩,
   ⟨rfl, by decide, by decide,
    C10_naive_timestamp_aborts.2 (some [some goodEntry, some naiveEntry]) {} none 0
      [goodMeas, naiveMeas] rfl (by decide) (by decide)⟩⟩
